import Mathlib

/-!
Verification of the request-synthesis engine of the uframe-m2m repository.

The development shallowly embeds the core logic of `m2m/UFrameClient.py`
(instrument search, time-window reconciliation and query-URL synthesis in
`instrument_to_query`) and of the deployment scripts
(`fetch_instrument_deployments.py`, `show_instrument_deployment_status.py`).

Modelling conventions:
* Instants (Python `datetime` values) are modelled as `Int` (microseconds
  since the epoch, UTC).  Python `datetime` comparison is `Int` comparison.
* Timestamp strings are modelled symbolically by `TStr`: a string either is
  the `strftime('%Y-%m-%dT%H:%M:%S.%fZ')` rendering of an instant
  (`TStr.fixed`), or is a gateway-supplied string that parses to an instant
  and may or may not textually match that fixed pattern (`TStr.gw`), or is
  unparseable (`TStr.bad`).  `dateutil.parser.parse` round-trips the fixed
  rendering, so `parseTS (TStr.fixed t) = some t`.
* `dateutil.relativedelta` subtraction (`dt1 - tdelta(**{type: value})`) is
  an external library call; it is passed in as an explicit function
  `tdeltaSub : String → Int → Int → Int` mapping (delta type, delta value,
  end instant) to the start instant.
* Python truthiness of optional arguments is made explicit: `None` and the
  empty string / zero are falsy.
-/

/-- Symbolic model of a timestamp string.
`fixed t` is the `strftime('%Y-%m-%dT%H:%M:%S.%fZ')` rendering of instant
`t`; `gw t isFixedForm` is a gateway-supplied string denoting instant `t`,
with `isFixedForm` recording whether the string textually matches the fixed
`%Y-%m-%dT%H:%M:%S.%fZ` pattern (a string matching the pattern is exactly
the fixed rendering of its own value); `bad s` is an unparseable string. -/
inductive TStr where
  | fixed (t : Int)
  | gw (t : Int) (isFixedForm : Bool)
  | bad (s : String)
  deriving DecidableEq, Repr

/-- `dateutil.parser.parse`: succeeds on parseable strings, raising
(`none`) on unparseable ones. -/
def parseTS : TStr → Option Int
  | .fixed t => some t
  | .gw t _ => some t
  | .bad _ => none

/-- The instant denoted by a parseable timestamp string (unused on `bad`). -/
def tsVal : TStr → Int
  | .fixed t => t
  | .gw t _ => t
  | .bad _ => 0

/-- Whether the string textually matches the fixed-precision pattern
`%Y-%m-%dT%H:%M:%S.%fZ`. -/
def matchesFixedPattern : TStr → Bool
  | .fixed _ => true
  | .gw _ b => b
  | .bad _ => false

/-- Python truthiness of an optional string argument: `None` and `''` are
falsy. -/
def truthyOptStr : Option String → Bool
  | some s => !s.isEmpty
  | none => false

/-- Python truthiness of an optional integer argument: `None` and `0` are
falsy. -/
def truthyOptInt : Option Int → Bool
  | some v => v != 0
  | none => false

/-- Auxiliary scan for `pyFind`: returns `i + ` (offset of the first suffix
of `l` that `sub` is a prefix of), or `-1` when there is none. -/
def findAux (sub : List Char) : List Char → Nat → Int
  | l, i =>
    if sub.isPrefixOf l then (i : Int)
    else
      match l with
      | [] => -1
      | _ :: t => findAux sub t (i + 1)

/-- Python `s.find(sub)`: index of the leftmost occurrence of `sub` in `s`,
or `-1` when `sub` does not occur. -/
def pyFind (s sub : String) : Int :=
  findAux sub.toList s.toList 0

lemma findAux_nonneg_iff (sub l : List Char) (i : Nat) :
    -1 < findAux sub l i ↔ sub <:+: l := by
  induction l generalizing i with
  | nil =>
    rw [findAux]
    by_cases h : sub.isPrefixOf ([] : List Char) = true
    · rw [if_pos h]
      have hsub : sub = [] := List.prefix_nil.mp (List.isPrefixOf_iff_prefix.mp h)
      subst hsub
      constructor
      · intro _; exact List.infix_refl []
      · intro _; omega
    · rw [if_neg h]
      constructor
      · intro hlt; exact absurd hlt (lt_irrefl (-1))
      · intro hinf
        have hsub : sub = [] := List.infix_nil.mp hinf
        exact absurd (List.isPrefixOf_iff_prefix.mpr (hsub ▸ List.prefix_refl [])) h
  | cons a t ih =>
    rw [findAux]
    by_cases h : sub.isPrefixOf (a :: t) = true
    · rw [if_pos h]
      have hpre : sub <+: a :: t := List.isPrefixOf_iff_prefix.mp h
      constructor
      · intro _; exact hpre.isInfix
      · intro _; omega
    · rw [if_neg h]
      rw [ih, List.infix_cons_iff]
      constructor
      · intro hinf; exact Or.inr hinf
      · rintro (hpre | hinf)
        · exact absurd (List.isPrefixOf_iff_prefix.mpr hpre) h
        · exact hinf

/-- `pyFind s sub > -1` exactly when `sub` occurs as a substring of `s`. -/
lemma pyFind_pos_iff (s sub : String) :
    -1 < pyFind s sub ↔ sub.toList <:+: s.toList :=
  findAux_nonneg_iff _ _ _

/-- `UFrameClient.search_instruments` (UFrameClient.py lines 233-237):
`[i for i in self._instruments if i.find(ref_des) > -1]`. -/
def search_instruments (instruments : List String) (ref_des : String) : List String :=
  instruments.filter (fun i => -1 < pyFind i ref_des)

example : search_instruments ["CE01ISSM-MFD35-00-DOSTAD000", "CE02SHSM-RID27"] "CE01ISSM"
    = ["CE01ISSM-MFD35-00-DOSTAD000"] := by decide

/-- One entry of the `/metadata/times` response consumed by
`instrument_to_query` (UFrameClient.py lines 404-502): the stream name, the
telemetry method and the availability bounds. -/
structure InstrumentStream where
  stream : String
  method : String
  beginTime : TStr
  endTime : TStr
  deriving DecidableEq, Repr

/-- The seven recognized `dateutil.relativedelta` units
(UFrameClient.py lines 15-21, `_valid_relativedeltatypes`). -/
def validDeltaTypes : List String :=
  ["years", "months", "weeks", "days", "hours", "minutes", "seconds"]

/-- The parameterized query endpoint assembled at UFrameClient.py lines
484-500.  Each field corresponds, in order, to one `{...}` slot of the
format string
`sensor/inv/{r0}/{r1}/{r2}-{r3}/{method}/{stream}?beginDT={ts0}&endDT={ts1}&format=application/{application_type}&limit={limit}&execDPA={exec_dpa}&include_provenance={provenance}&user={user}[&email={email}]`;
the two boolean flags are rendered lowercase (`str(b).lower()`) and the
email parameter is appended only when truthy. -/
structure EndPoint where
  subsite : String
  node : String
  sensor1 : String
  sensor2 : String
  method : String
  stream : String
  beginDT : TStr
  endDT : TStr
  application_type : String
  limit : Int
  execDPA : Bool
  include_provenance : Bool
  user : String
  email : Option String
  deriving DecidableEq, Repr

/-- Outcome of processing one (instrument, stream) pair in the inner loop of
`instrument_to_query`.  Each non-`url` constructor corresponds to one
`continue` site: the telemetry mismatch at line 406, the two timestamp parse
failures at lines 410-424, and the failed `dt0 >= dt1` re-check at lines
477-481. -/
inductive StreamResult where
  | url (ep : EndPoint)
  | skipTelemetry
  | badBeginTime
  | badEndTime
  | invalidRange
  deriving DecidableEq, Repr

/-- Window selection, UFrameClient.py lines 426-438: when both
`time_delta_type` and `time_delta_value` are truthy (mode B), the window is
`(stream_dt1 - delta, stream_dt1)`; otherwise (mode A) explicit bounds are
used where present, with the stream bounds as defaults.  `tdeltaSub` models
the external `dateutil.relativedelta` subtraction
`dt1 - tdelta(**{time_delta_type: time_delta_value})`. -/
def select_window (tdeltaSub : String → Int → Int → Int)
    (time_delta_type : Option String) (time_delta_value : Option Int)
    (begin_dt end_dt : Option Int) (stream_dt0 stream_dt1 : Int) : Int × Int :=
  if truthyOptStr time_delta_type && truthyOptInt time_delta_value then
    let dt1 := stream_dt1
    (tdeltaSub (time_delta_type.getD "") (time_delta_value.getD 0) dt1, dt1)
  else
    (begin_dt.getD stream_dt0, end_dt.getD stream_dt1)

/-- The query endpoint assembled at UFrameClient.py lines 484-500, with
`r` the `instrument.split('-')` tokens from line 402. -/
def mkEndPoint (r : List String) (st : InstrumentStream) (ts0 ts1 : TStr)
    (application_type : String) (limit : Int) (exec_dpa provenance : Bool)
    (user : String) (email : Option String) : EndPoint :=
  { subsite := r.getD 0 ""
    node := r.getD 1 ""
    sensor1 := r.getD 2 ""
    sensor2 := r.getD 3 ""
    method := st.method
    stream := st.stream
    beginDT := ts0
    endDT := ts1
    application_type := application_type
    limit := limit
    execDPA := exec_dpa
    include_provenance := provenance
    user := user
    email := email }

/-- End-time clamping, UFrameClient.py lines 456-463: when the requested
end instant `dt1` exceeds the stream's end bound `s1`, the rendered end
string is replaced by the stream's verbatim `endTime` string
(`ts1 = instrument_stream['endTime']`); otherwise the
`strftime('%Y-%m-%dT%H:%M:%S.%fZ')` rendering of `dt1` is kept. -/
def clamp_ts1 (st : InstrumentStream) (dt1 s1 : Int) : TStr :=
  if dt1 > s1 then st.endTime else TStr.fixed dt1

/-- Start-time clamping, UFrameClient.py lines 465-472: when the requested
start instant `dt0` precedes the stream's begin bound `s0`, the rendered
start string is replaced by the stream's verbatim `beginTime` string;
otherwise the fixed rendering of `dt0` is kept. -/
def clamp_ts0 (st : InstrumentStream) (dt0 s0 : Int) : TStr :=
  if dt0 < s0 then st.beginTime else TStr.fixed dt0

/-- Time-window reconciliation for one stream with parsed bounds
`s0`/`s1` (UFrameClient.py lines 426-481): select the window
(`select_window`, lines 426-438), render both instants to fixed-pattern
strings (lines 441-451, total on the `Int` model); when `time_check` is
set, clamp both strings (lines 455-472), re-parse them (lines 475-476 —
both strings are parseable here, so re-parsing yields `tsVal`) and reject
(`none`, the `continue` at line 481) when `dt0 >= dt1`.  When `time_check`
is not set, no re-validation occurs. -/
def reconcile (tdeltaSub : String → Int → Int → Int) (st : InstrumentStream)
    (time_delta_type : Option String) (time_delta_value : Option Int)
    (begin_dt end_dt : Option Int) (time_check : Bool) (s0 s1 : Int) :
    Option (TStr × TStr) :=
  if time_check then
    if tsVal (clamp_ts0 st
          (select_window tdeltaSub time_delta_type time_delta_value begin_dt end_dt s0 s1).1 s0)
        ≥ tsVal (clamp_ts1 st
          (select_window tdeltaSub time_delta_type time_delta_value begin_dt end_dt s0 s1).2 s1)
    then none
    else some
      (clamp_ts0 st
        (select_window tdeltaSub time_delta_type time_delta_value begin_dt end_dt s0 s1).1 s0,
       clamp_ts1 st
        (select_window tdeltaSub time_delta_type time_delta_value begin_dt end_dt s0 s1).2 s1)
  else
    some
      (TStr.fixed (select_window tdeltaSub time_delta_type time_delta_value begin_dt end_dt s0 s1).1,
       TStr.fixed (select_window tdeltaSub time_delta_type time_delta_value begin_dt end_dt s0 s1).2)

/-- Body of the inner `for instrument_stream in instrument_streams` loop of
`instrument_to_query` (UFrameClient.py lines 404-502):
1. telemetry filter (line 406): skip when a truthy telemetry is not a
   substring of the stream's method;
2. parse `beginTime` / `endTime` (lines 410-424): skip on failure;
3. reconcile the window (`reconcile`, lines 426-481), skipping the stream
   when the re-validation fails;
4. build the endpoint (lines 484-502). -/
def process_stream (tdeltaSub : String → Int → Int → Int) (r : List String)
    (instrument_stream : InstrumentStream) (telemetry : Option String)
    (time_delta_type : Option String) (time_delta_value : Option Int)
    (begin_dt end_dt : Option Int) (time_check exec_dpa : Bool)
    (application_type : String) (provenance : Bool) (limit : Int)
    (user : String) (email : Option String) : StreamResult :=
  if truthyOptStr telemetry && (pyFind instrument_stream.method (telemetry.getD "") == -1) then
    .skipTelemetry
  else
    match parseTS instrument_stream.beginTime with
    | none => .badBeginTime
    | some stream_dt0 =>
      match parseTS instrument_stream.endTime with
      | none => .badEndTime
      | some stream_dt1 =>
        match reconcile tdeltaSub instrument_stream time_delta_type time_delta_value
            begin_dt end_dt time_check stream_dt0 stream_dt1 with
        | none => .invalidRange
        | some (ts0, ts1) =>
          .url (mkEndPoint r instrument_stream ts0 ts1 application_type
            limit exec_dpa provenance user email)

/-- The stream-name filter of UFrameClient.py lines 388-395: when a truthy
stream name is supplied, keep only the first stream bearing that name
(`stream_names.index(stream)` returns the first occurrence) and contribute
nothing when no stream bears it (`continue`). -/
def name_filter_streams (streams : List InstrumentStream) (stream : Option String) :
    List InstrumentStream :=
  if truthyOptStr stream then
    match streams.find? (fun s => s.stream == stream.getD "") with
    | some x => [x]
    | none => []
  else
    streams

/-- Projection of a `StreamResult` onto the produced endpoint, if any;
the `urls.append` at UFrameClient.py line 502 runs exactly when none of the
`continue` sites fired. -/
def resultUrl? : StreamResult → Option EndPoint
  | .url ep => some ep
  | _ => none

/-- Body of the outer `for instrument in instruments` loop of
`instrument_to_query` (UFrameClient.py lines 380-502): fetch the streams
(a Gateway call, passed in as `fetchStreams`), skip the instrument when the
result is empty (line 384) or when the stream-name filter leaves nothing
(lines 388-399), split the reference designator (line 402), and process
each remaining stream. -/
def instrument_urls (fetchStreams : String → List InstrumentStream)
    (tdeltaSub : String → Int → Int → Int) (instrument : String)
    (stream telemetry : Option String)
    (time_delta_type : Option String) (time_delta_value : Option Int)
    (begin_dt end_dt : Option Int) (time_check exec_dpa : Bool)
    (application_type : String) (provenance : Bool) (limit : Int)
    (user : String) (email : Option String) : List EndPoint :=
  if (fetchStreams instrument).isEmpty then []
  else if (name_filter_streams (fetchStreams instrument) stream).isEmpty then []
  else
    (name_filter_streams (fetchStreams instrument) stream).filterMap (fun st =>
      resultUrl? (process_stream tdeltaSub (instrument.splitOn "-") st telemetry
        time_delta_type time_delta_value begin_dt end_dt time_check exec_dpa
        application_type provenance limit user email))

/-- Parse an optional request timestamp (UFrameClient.py lines 364-378):
`none` input (falsy `begin_ts`/`end_ts`) yields `some none`; a truthy input
yields `some (some v)` on success and `none` on a parse failure, in which
case `instrument_to_query` returns the empty url list. -/
def parseOptTs : Option TStr → Option (Option Int)
  | none => some none
  | some t =>
    match parseTS t with
    | some v => some (some v)
    | none => none

/-- `UFrameClient.instrument_to_query` (UFrameClient.py lines 323-504).
`instruments_catalog` is the client's `_instruments` list (built sorted by
`_create_instrument_list`), `fetchStreams` the Gateway's
`fetch_instrument_streams` capability and `tdeltaSub` the external
`dateutil.relativedelta` subtraction.  Mirrors, in order: the instrument
search (lines 355-357), the delta-type validity check (lines 359-362), the
parsing of explicit `begin_ts`/`end_ts` (lines 364-378, empty result on
failure) and the per-instrument loop.  The `annotations` argument is
accepted (line 325) but never used. -/
def instrument_to_query (instruments_catalog : List String)
    (fetchStreams : String → List InstrumentStream)
    (tdeltaSub : String → Int → Int → Int) (ref_des user : String)
    (stream telemetry : Option String)
    (time_delta_type : Option String) (time_delta_value : Option Int)
    (begin_ts end_ts : Option TStr) (time_check exec_dpa : Bool)
    (application_type : String) (provenance : Bool) (limit : Int)
    (annotations : Bool) (email : Option String) : List EndPoint :=
  let instruments := search_instruments instruments_catalog ref_des
  if instruments.isEmpty then []
  else if truthyOptStr time_delta_type && truthyOptInt time_delta_value
      && !(validDeltaTypes.contains (time_delta_type.getD "")) then []
  else
    match parseOptTs begin_ts with
    | none => []
    | some begin_dt =>
      match parseOptTs end_ts with
      | none => []
      | some end_dt =>
        instruments.flatMap (fun instrument =>
          instrument_urls fetchStreams tdeltaSub instrument stream telemetry
            time_delta_type time_delta_value begin_dt end_dt time_check
            exec_dpa application_type provenance limit user email)

/-- A deployment event as returned by the `/events/deployment/query`
endpoint and consumed by the deployment scripts.  `eventStartTime` and
`eventStopTime` are epoch-millisecond integers, nullable in the upstream
JSON (`none` models `null`). -/
structure DeploymentEvent where
  ref_des : String
  deploymentNumber : Int
  eventStartTime : Option Int
  eventStopTime : Option Int
  deriving DecidableEq, Repr

/-- Predicate behind the status filter: whether an event matches a
requested status.  `active`/`inactive` are decided by the truthiness of
`eventStopTime` (the inline filter of show_instrument_deployment_status.py
lines 65-68: `not d['eventStopTime']` / `d['eventStopTime']`); any other
status (in particular `all`) matches every event. -/
def matchesStatus (status : String) (d : DeploymentEvent) : Bool :=
  if status == "active" then !truthyOptInt d.eventStopTime
  else if status == "inactive" then truthyOptInt d.eventStopTime
  else true

/-- Modelled from the spec: `filter_deployments_by_status` is called by
fetch_instrument_deployments.py line 46 and the `scripts/` variants but is
not defined anywhere under src/ (src/m2m/UFrameClient.py has no such
method).  Modelled from spec section 4.2, "Status filter:
`filterByStatus(events, status ∈ {active, inactive, all}) -> subsequence`,
pure predicate filter, no mutation", with the active/inactive predicates
taken from the equivalent inline filter in
show_instrument_deployment_status.py lines 65-68. -/
def filter_deployments_by_status (events : List DeploymentEvent) (status : String) :
    List DeploymentEvent :=
  if status == "active" then events.filter (fun d => !truthyOptInt d.eventStopTime)
  else if status == "inactive" then events.filter (fun d => truthyOptInt d.eventStopTime)
  else events

/-- Active classification of fetch_instrument_deployments.py lines 74-86:
`d['active'] = False` when `eventStopTime` is truthy, flipped to `True` when
the parsed stop instant is `>= now`; a falsy `eventStopTime` (null or `0`)
yields `active = True`.  Instants are compared in epoch milliseconds (the
script converts `eventStopTime/1000` to a `datetime`; the conversion is
order- and equality-preserving, so the comparison is modelled directly on
the millisecond values). -/
def classify_active (now : Int) (eventStopTime : Option Int) : Bool :=
  if truthyOptInt eventStopTime then
    decide (eventStopTime.getD 0 ≥ now)
  else
    true

/-- Active classification of show_instrument_deployment_status.py lines
102-109 and 119-128: `dt1` is the parsed stop instant when `eventStopTime`
is truthy and `None` otherwise; `status['active']` starts `False` and is set
`True` exactly when `dt1` is `None` (a `datetime` object is always truthy).
The evaluation instant plays no role in this script. -/
def classify_active_show (eventStopTime : Option Int) : Bool :=
  !truthyOptInt eventStopTime

/-- Deployment/stream overlap check, show_instrument_deployment_status.py
lines 119-148: `status['deployment_has_particles']` starts `True`, is set
`False` when `st1 < dt0` (stream ends before the deployment began) and
otherwise when `dt1 and st0 > dt1` (the deployment has a stop instant and
the stream begins after it).  `dt0`/`dt1` are the deployment start/stop
instants (`dt1 = none` for an open deployment), `st0`/`st1` the parsed
stream bounds. -/
def deployment_has_particles (dt0 : Int) (dt1 : Option Int) (st0 st1 : Int) : Bool :=
  if st1 < dt0 then false
  else if (match dt1 with | some d1 => decide (st0 > d1) | none => false) then false
  else true

/-- A parseable timestamp string re-parses to its denoted instant. -/
lemma tsVal_of_parseTS {t : TStr} {v : Int} (h : parseTS t = some v) : tsVal t = v := by
  cases t with
  | fixed a => simpa [parseTS, tsVal] using h
  | gw a b => simpa [parseTS, tsVal] using h
  | bad s => simp [parseTS] at h

/-- C7: for every deployment window `[d0, d1-or-open]` and stream window
`[s0, s1]`, the deployment is judged to have produced particles iff
`s1 ≥ d0` and (`d1` is open or `s0 ≤ d1`); boundary equality counts as
overlap. -/
theorem deployment_overlap_iff (dt0 : Int) (dt1 : Option Int) (st0 st1 : Int) :
    deployment_has_particles dt0 dt1 st0 st1 = true ↔
      (dt0 ≤ st1 ∧ (dt1 = none ∨ ∃ d1, dt1 = some d1 ∧ st0 ≤ d1)) := by
  cases dt1 with
  | none =>
    simp only [deployment_has_particles]
    constructor
    · intro h
      by_cases h1 : st1 < dt0
      · rw [if_pos h1] at h
        exact absurd h (by simp)
      · exact ⟨by omega, by simp⟩
    · rintro ⟨hle, -⟩
      rw [if_neg (by omega)]
      simp
  | some d1 =>
    simp only [deployment_has_particles]
    constructor
    · intro h
      by_cases h1 : st1 < dt0
      · rw [if_pos h1] at h
        exact absurd h (by simp)
      · rw [if_neg h1] at h
        by_cases h2 : st0 > d1
        · rw [if_pos (by simpa using h2)] at h
          exact absurd h (by simp)
        · exact ⟨by omega, Or.inr ⟨d1, rfl, by omega⟩⟩
    · rintro ⟨hle, h⟩
      rcases h with h | ⟨d1', hd, h2⟩
      · simp at h
      · injection hd with hd
        subst hd
        rw [if_neg (by omega), if_neg (by simp; omega)]

/-- C7 witness: deployment `[0, 10]` and stream `[5, 7]` overlap. -/
theorem deployment_overlap_iff_witness :
    deployment_has_particles 0 (some 10) 5 7 = true :=
  (deployment_overlap_iff 0 (some 10) 5 7).mpr
    ⟨by decide, Or.inr ⟨10, rfl, by decide⟩⟩

/-- C5 counterexample: an event whose `eventStopTime` (instant 5) equals or
is after the evaluation instant (3) is classified inactive by
show_instrument_deployment_status.py, which sets `active = True` only when
there is no stop time. -/
theorem deployment_active_cex :
    (5 : Int) ≥ 3 ∧ classify_active_show (some 5) = false := by
  constructor
  · decide
  · rfl

/-- C5 (amended): in fetch_instrument_deployments.py an event with an
absent or zero (falsy) `eventStopTime` is classified active, and an event
with a nonzero `eventStopTime` is classified active iff the stop instant is
at or after `now` (boundary-inclusive); in
show_instrument_deployment_status.py an event is classified active iff its
`eventStopTime` is absent or zero, regardless of the evaluation instant, so
a future stop instant is classified inactive there. -/
theorem deployment_active_characterization (now v : Int) :
    classify_active now none = true ∧
    classify_active_show none = true ∧
    classify_active now (some 0) = true ∧
    classify_active_show (some 0) = true ∧
    (v ≠ 0 → (classify_active now (some v) = true ↔ v ≥ now)) ∧
    (v ≠ 0 → classify_active_show (some v) = false) := by
  refine ⟨rfl, rfl, rfl, rfl, ?_, ?_⟩
  · intro hv
    have hb : ((v : Int) != 0) = true := by simpa using hv
    simp [classify_active, truthyOptInt, hb]
  · intro hv
    have hb : ((v : Int) != 0) = true := by simpa using hv
    simp [classify_active_show, truthyOptInt, hb]

/-- C5 witness: at `now = 3`, a stop instant of 5 is classified active by
the fetch script and inactive by the show script. -/
theorem deployment_active_characterization_witness :
    classify_active 3 (some 5) = true ∧ classify_active_show (some 5) = false :=
  ⟨((deployment_active_characterization 3 5).2.2.2.2.1 (by decide)).mpr (by decide),
   (deployment_active_characterization 3 5).2.2.2.2.2 (by decide)⟩

/-- C2: the deployment status filter is a pure, total predicate filter:
its result is an order-preserving subsequence of the input, status `all`
returns the whole sequence, and an event is in the result iff it is in the
input and matches the status (in particular no input is mutated and no
error is possible: the function is total). -/
theorem filter_by_status_spec (events : List DeploymentEvent) (status : String) :
    (filter_deployments_by_status events status).Sublist events ∧
    filter_deployments_by_status events "all" = events ∧
    (∀ d, d ∈ filter_deployments_by_status events status ↔
      d ∈ events ∧ matchesStatus status d = true) := by
  refine ⟨?_, ?_, ?_⟩
  · unfold filter_deployments_by_status
    split
    · exact List.filter_sublist _
    · split
      · exact List.filter_sublist _
      · exact List.Sublist.refl _
  · rfl
  · intro d
    unfold filter_deployments_by_status matchesStatus
    split
    · rw [List.mem_filter]
    · split
      · rw [List.mem_filter]
      · simp

/-- C2 witness: status `all` on a one-event sequence returns it whole. -/
theorem filter_by_status_spec_witness :
    filter_deployments_by_status [⟨"r", 1, some 4, none⟩] "all"
      = [⟨"r", 1, some 4, none⟩] :=
  (filter_by_status_spec [⟨"r", 1, some 4, none⟩] "all").2.1

/-- C8: the resolver returns exactly the catalog entries that contain the
pattern as a case-sensitive substring, as an order-preserving subsequence
of the catalog, and returns the empty sequence (not an error) exactly when
no entry matches; being a pure function of its arguments it is identical
on repeated calls. -/
theorem search_instruments_spec (instruments : List String) (ref_des : String) :
    (search_instruments instruments ref_des).Sublist instruments ∧
    (∀ x, x ∈ search_instruments instruments ref_des ↔
      x ∈ instruments ∧ ref_des.toList <:+: x.toList) ∧
    (search_instruments instruments ref_des = [] ↔
      ∀ x ∈ instruments, ¬ ref_des.toList <:+: x.toList) := by
  have hmem : ∀ x, x ∈ search_instruments instruments ref_des ↔
      x ∈ instruments ∧ ref_des.toList <:+: x.toList := by
    intro x
    unfold search_instruments
    rw [List.mem_filter]
    constructor
    · rintro ⟨hx, hp⟩
      exact ⟨hx, (pyFind_pos_iff x ref_des).mp (by simpa using hp)⟩
    · rintro ⟨hx, hp⟩
      exact ⟨hx, by simpa using (pyFind_pos_iff x ref_des).mpr hp⟩
  refine ⟨List.filter_sublist _, hmem, ?_⟩
  constructor
  · intro hnil x hx hinf
    have : x ∈ search_instruments instruments ref_des := (hmem x).mpr ⟨hx, hinf⟩
    rw [hnil] at this
    exact absurd this (List.not_mem_nil x)
  · intro hall
    rcases he : search_instruments instruments ref_des with _ | ⟨x, rest⟩
    · rfl
    · have hx : x ∈ search_instruments instruments ref_des := by
        rw [he]; exact List.mem_cons_self x rest
      rcases (hmem x).mp hx with ⟨hx1, hx2⟩
      exact absurd hx2 (hall x hx1)

/-- C8 witness: pattern `CE01ISSM` matches the first catalog entry. -/
theorem search_instruments_spec_witness :
    "CE01ISSM-MFD35-00-DOSTAD000"
      ∈ search_instruments ["CE01ISSM-MFD35-00-DOSTAD000", "CE02SHSM-RID27"] "CE01ISSM" :=
  ((search_instruments_spec ["CE01ISSM-MFD35-00-DOSTAD000", "CE02SHSM-RID27"]
      "CE01ISSM").2.1 _).mpr ⟨by decide, by decide⟩

/-- C10: the synthesized URL list does not depend on the `annotations`
argument: with all other inputs equal, `instrument_to_query` returns
identical URL lists for any two annotation flags, because no annotations
parameter is ever rendered into a URL. -/
theorem annotations_independence (instruments_catalog : List String)
    (fetchStreams : String → List InstrumentStream)
    (tdeltaSub : String → Int → Int → Int) (ref_des user : String)
    (stream telemetry : Option String)
    (time_delta_type : Option String) (time_delta_value : Option Int)
    (begin_ts end_ts : Option TStr) (time_check exec_dpa : Bool)
    (application_type : String) (provenance : Bool) (limit : Int)
    (a₁ a₂ : Bool) (email : Option String) :
    instrument_to_query instruments_catalog fetchStreams tdeltaSub ref_des user
        stream telemetry time_delta_type time_delta_value begin_ts end_ts
        time_check exec_dpa application_type provenance limit a₁ email
      = instrument_to_query instruments_catalog fetchStreams tdeltaSub ref_des user
        stream telemetry time_delta_type time_delta_value begin_ts end_ts
        time_check exec_dpa application_type provenance limit a₂ email := rfl

/-- C3: whenever a recognized delta type and a positive delta value are
both supplied, the selected window is
`(stream.endTime - delta, stream.endTime)`, regardless of any explicit
begin/end instants also supplied: mode B strictly dominates mode A. -/
theorem mode_b_dominates (tdeltaSub : String → Int → Int → Int)
    (tdt : String) (tdv : Int) (begin_dt end_dt : Option Int) (s0 s1 : Int)
    (hmem : tdt ∈ validDeltaTypes) (hpos : 0 < tdv) :
    select_window tdeltaSub (some tdt) (some tdv) begin_dt end_dt s0 s1
      = (tdeltaSub tdt tdv s1, s1) := by
  have hne : tdt.isEmpty = false := by
    fin_cases hmem <;> rfl
  have hvz : ((tdv : Int) != 0) = true := by
    simp only [bne_iff_ne, ne_eq]
    omega
  simp [select_window, truthyOptStr, truthyOptInt, hne, hvz]

/-- C3 witness: delta type `days`, value 2, with both explicit bounds also
supplied, yields the mode-B window. -/
theorem mode_b_dominates_witness :
    select_window (fun _ _ t => t) (some "days") (some 2) (some 5) (some 7) 0 100
      = (100, 100) :=
  mode_b_dominates (fun _ _ t => t) "days" 2 (some 5) (some 7) 0 100
    (by decide) (by decide)

/-- With `time_check` set, a window that collapses after clamping is
rejected. -/
lemma reconcile_none_of_ge (tdeltaSub : String → Int → Int → Int)
    (st : InstrumentStream) (tdt : Option String) (tdv : Option Int)
    (begin_dt end_dt : Option Int) (s0 s1 : Int)
    (hge : tsVal (clamp_ts0 st (select_window tdeltaSub tdt tdv begin_dt end_dt s0 s1).1 s0)
        ≥ tsVal (clamp_ts1 st (select_window tdeltaSub tdt tdv begin_dt end_dt s0 s1).2 s1)) :
    reconcile tdeltaSub st tdt tdv begin_dt end_dt true s0 s1 = none := by
  have hstep : reconcile tdeltaSub st tdt tdv begin_dt end_dt true s0 s1
      = if tsVal (clamp_ts0 st (select_window tdeltaSub tdt tdv begin_dt end_dt s0 s1).1 s0)
          ≥ tsVal (clamp_ts1 st (select_window tdeltaSub tdt tdv begin_dt end_dt s0 s1).2 s1)
        then none
        else some
          (clamp_ts0 st (select_window tdeltaSub tdt tdv begin_dt end_dt s0 s1).1 s0,
           clamp_ts1 st (select_window tdeltaSub tdt tdv begin_dt end_dt s0 s1).2 s1) := rfl
  rw [hstep, if_pos hge]

/-- When the telemetry filter passes and both stream bounds parse,
`process_stream` is the reconciliation result followed by URL synthesis. -/
lemma process_stream_eq_reconcile (tdeltaSub : String → Int → Int → Int)
    (r : List String) (st : InstrumentStream) (telemetry tdt : Option String)
    (tdv : Option Int) (begin_dt end_dt : Option Int)
    (time_check exec_dpa : Bool) (application_type : String) (provenance : Bool)
    (limit : Int) (user : String) (email : Option String) (s0 s1 : Int)
    (htel : truthyOptStr telemetry = false)
    (hb : parseTS st.beginTime = some s0) (he : parseTS st.endTime = some s1) :
    process_stream tdeltaSub r st telemetry tdt tdv begin_dt end_dt time_check
        exec_dpa application_type provenance limit user email
      = match reconcile tdeltaSub st tdt tdv begin_dt end_dt time_check s0 s1 with
        | none => .invalidRange
        | some (ts0, ts1) =>
          .url (mkEndPoint r st ts0 ts1 application_type limit exec_dpa
            provenance user email) := by
  unfold process_stream
  rw [htel, hb, he]
  simp only [Bool.false_and, Bool.false_eq_true, if_false]

/-- Collapse after clamping yields `InvalidRange` for the stream. -/
lemma process_stream_invalid_of_ge (tdeltaSub : String → Int → Int → Int)
    (r : List String) (st : InstrumentStream) (telemetry tdt : Option String)
    (tdv : Option Int) (begin_dt end_dt : Option Int) (exec_dpa : Bool)
    (application_type : String) (provenance : Bool) (limit : Int)
    (user : String) (email : Option String) (s0 s1 : Int)
    (htel : truthyOptStr telemetry = false)
    (hb : parseTS st.beginTime = some s0) (he : parseTS st.endTime = some s1)
    (hge : tsVal (clamp_ts0 st (select_window tdeltaSub tdt tdv begin_dt end_dt s0 s1).1 s0)
        ≥ tsVal (clamp_ts1 st (select_window tdeltaSub tdt tdv begin_dt end_dt s0 s1).2 s1)) :
    process_stream tdeltaSub r st telemetry tdt tdv begin_dt end_dt true
      exec_dpa application_type provenance limit user email = .invalidRange := by
  rw [process_stream_eq_reconcile tdeltaSub r st telemetry tdt tdv begin_dt end_dt
    true exec_dpa application_type provenance limit user email s0 s1 htel hb he]
  rw [reconcile_none_of_ge tdeltaSub st tdt tdv begin_dt end_dt s0 s1 hge]

/-- C1 counterexample: with `timeCheck` false, explicit begin 100 and
explicit end 50 (so start greater than end), the stream is NOT rejected —
a URL is synthesized with `beginDT` later than `endDT`, so the claimed
re-validation does not happen regardless of `timeCheck`. -/
theorem revalidation_cex :
    process_stream (fun _ _ t => t) ["A", "B", "C", "D"]
        ⟨"s", "m", TStr.fixed 0, TStr.fixed 1000⟩ none none none
        (some 100) (some 50) false true "netcdf" true (-1) "u" none
      = .url ⟨"A", "B", "C", "D", "m", "s", TStr.fixed 100, TStr.fixed 50,
          "netcdf", -1, true, true, "u", none⟩ ∧
    tsVal (TStr.fixed 100) ≥ tsVal (TStr.fixed 50) := by
  constructor
  · rfl
  · decide

/-- C1 (amended): for a stream with parseable bounds (and a passing
telemetry filter), when `timeCheck` is true reconciliation re-validates
`start < end` after clamping and rejects the stream with `InvalidRange`
(no URL) when the re-check fails; when `timeCheck` is false no
re-validation occurs and a URL is synthesized unconditionally, even when
`start >= end`. -/
theorem revalidate_start_end (tdeltaSub : String → Int → Int → Int)
    (r : List String) (st : InstrumentStream) (telemetry tdt : Option String)
    (tdv : Option Int) (begin_dt end_dt : Option Int) (exec_dpa : Bool)
    (application_type : String) (provenance : Bool) (limit : Int)
    (user : String) (email : Option String) (s0 s1 : Int)
    (htel : truthyOptStr telemetry = false)
    (hb : parseTS st.beginTime = some s0) (he : parseTS st.endTime = some s1) :
    (tsVal (clamp_ts0 st (select_window tdeltaSub tdt tdv begin_dt end_dt s0 s1).1 s0)
        ≥ tsVal (clamp_ts1 st (select_window tdeltaSub tdt tdv begin_dt end_dt s0 s1).2 s1) →
      process_stream tdeltaSub r st telemetry tdt tdv begin_dt end_dt true
        exec_dpa application_type provenance limit user email = .invalidRange) ∧
    process_stream tdeltaSub r st telemetry tdt tdv begin_dt end_dt false
        exec_dpa application_type provenance limit user email
      = .url (mkEndPoint r st
          (TStr.fixed (select_window tdeltaSub tdt tdv begin_dt end_dt s0 s1).1)
          (TStr.fixed (select_window tdeltaSub tdt tdv begin_dt end_dt s0 s1).2)
          application_type limit exec_dpa provenance user email) := by
  constructor
  · intro hge
    exact process_stream_invalid_of_ge tdeltaSub r st telemetry tdt tdv begin_dt
      end_dt exec_dpa application_type provenance limit user email s0 s1
      htel hb he hge
  · rw [process_stream_eq_reconcile tdeltaSub r st telemetry tdt tdv begin_dt
      end_dt false exec_dpa application_type provenance limit user email s0 s1
      htel hb he]
    rfl

/-- C1 witness: an explicit window (5, 2) inside stream bounds [0, 10] is
rejected when `timeCheck` is true and yields a URL when it is false. -/
theorem revalidate_start_end_witness :
    process_stream (fun _ _ t => t) ["A", "B", "C", "D"]
        ⟨"s", "m", TStr.fixed 0, TStr.fixed 10⟩ none none none
        (some 5) (some 2) true true "netcdf" true (-1) "u" none
      = .invalidRange ∧
    process_stream (fun _ _ t => t) ["A", "B", "C", "D"]
        ⟨"s", "m", TStr.fixed 0, TStr.fixed 10⟩ none none none
        (some 5) (some 2) false true "netcdf" true (-1) "u" none
      = .url (mkEndPoint ["A", "B", "C", "D"] ⟨"s", "m", TStr.fixed 0, TStr.fixed 10⟩
          (TStr.fixed 5) (TStr.fixed 2) "netcdf" (-1) true true "u" none) :=
  ⟨(revalidate_start_end (fun _ _ t => t) ["A", "B", "C", "D"]
      ⟨"s", "m", TStr.fixed 0, TStr.fixed 10⟩ none none none (some 5) (some 2)
      true "netcdf" true (-1) "u" none 0 10 rfl rfl rfl).1 (by decide),
   (revalidate_start_end (fun _ _ t => t) ["A", "B", "C", "D"]
      ⟨"s", "m", TStr.fixed 0, TStr.fixed 10⟩ none none none (some 5) (some 2)
      true "netcdf" true (-1) "u" none 0 10 rfl rfl rfl).2⟩

/-- C4: an explicit request window entirely disjoint from the stream's
availability window is rejected with `InvalidRange` when `timeCheck` is
true: clamping collapses the window and the `start < end` re-check fails,
so no URL is produced for the stream. -/
theorem disjoint_window_rejected (tdeltaSub : String → Int → Int → Int)
    (r : List String) (st : InstrumentStream) (telemetry : Option String)
    (exec_dpa : Bool) (application_type : String) (provenance : Bool)
    (limit : Int) (user : String) (email : Option String) (s0 s1 b e : Int)
    (htel : truthyOptStr telemetry = false)
    (hb : parseTS st.beginTime = some s0) (he : parseTS st.endTime = some s1)
    (hs : s0 ≤ s1) (hbe : b ≤ e) (hdisj : e < s0 ∨ s1 < b) :
    process_stream tdeltaSub r st telemetry none none (some b) (some e) true
      exec_dpa application_type provenance limit user email = .invalidRange := by
  apply process_stream_invalid_of_ge tdeltaSub r st telemetry none none (some b)
    (some e) exec_dpa application_type provenance limit user email s0 s1
    htel hb he
  have hsel : select_window tdeltaSub none none (some b) (some e) s0 s1 = (b, e) := rfl
  rw [hsel]
  have h0 : tsVal st.beginTime = s0 := tsVal_of_parseTS hb
  have h1 : tsVal st.endTime = s1 := tsVal_of_parseTS he
  rcases hdisj with h | h
  · unfold clamp_ts0 clamp_ts1
    rw [if_pos (show b < s0 by omega), if_neg (show ¬ e > s1 by omega)]
    rw [h0]
    simp only [tsVal, ge_iff_le]
    omega
  · unfold clamp_ts0 clamp_ts1
    rw [if_neg (show ¬ b < s0 by omega), if_pos (show e > s1 by omega)]
    rw [h1]
    simp only [tsVal, ge_iff_le]
    omega

/-- C4 witness: explicit window [30, 40] is disjoint from stream bounds
[10, 20]; with `timeCheck` true the stream is rejected. -/
theorem disjoint_window_rejected_witness :
    process_stream (fun _ _ t => t) ["A", "B", "C", "D"]
        ⟨"s", "m", TStr.fixed 10, TStr.fixed 20⟩ none none none
        (some 30) (some 40) true true "netcdf" true (-1) "u" none
      = .invalidRange :=
  disjoint_window_rejected (fun _ _ t => t) ["A", "B", "C", "D"]
    ⟨"s", "m", TStr.fixed 10, TStr.fixed 20⟩ none true "netcdf" true (-1) "u"
    none 10 20 30 40 rfl rfl rfl (by decide) (by decide) (Or.inr (by decide))

/-- A variant of `process_stream_eq_reconcile` that only assumes the whole
telemetry condition of UFrameClient.py line 406 is false (a truthy
telemetry that does occur in the method also passes the filter). -/
lemma process_stream_eq_reconcile_of_cond (tdeltaSub : String → Int → Int → Int)
    (r : List String) (st : InstrumentStream) (telemetry tdt : Option String)
    (tdv : Option Int) (begin_dt end_dt : Option Int)
    (time_check exec_dpa : Bool) (application_type : String) (provenance : Bool)
    (limit : Int) (user : String) (email : Option String) (s0 s1 : Int)
    (hcond : (truthyOptStr telemetry
      && (pyFind st.method (telemetry.getD "") == -1)) = false)
    (hb : parseTS st.beginTime = some s0) (he : parseTS st.endTime = some s1) :
    process_stream tdeltaSub r st telemetry tdt tdv begin_dt end_dt time_check
        exec_dpa application_type provenance limit user email
      = match reconcile tdeltaSub st tdt tdv begin_dt end_dt time_check s0 s1 with
        | none => .invalidRange
        | some (ts0, ts1) =>
          .url (mkEndPoint r st ts0 ts1 application_type limit exec_dpa
            provenance user email) := by
  unfold process_stream
  rw [hcond, hb, he]
  simp only [Bool.false_eq_true, if_false]

/-- The reconciled timestamp pair, exactly: with `time_check` set each
component is the clamped string (the verbatim stream bound when clamping
fired, the fixed rendering of the selected instant otherwise); without
`time_check` each component is the fixed rendering of the selected
instant. -/
lemma reconcile_some_eq (tdeltaSub : String → Int → Int → Int)
    (st : InstrumentStream) (tdt : Option String) (tdv : Option Int)
    (begin_dt end_dt : Option Int) (time_check : Bool) (s0 s1 : Int)
    (ts0 ts1 : TStr)
    (h : reconcile tdeltaSub st tdt tdv begin_dt end_dt time_check s0 s1
      = some (ts0, ts1)) :
    ts0 = (if time_check then
        clamp_ts0 st (select_window tdeltaSub tdt tdv begin_dt end_dt s0 s1).1 s0
      else TStr.fixed (select_window tdeltaSub tdt tdv begin_dt end_dt s0 s1).1) ∧
    ts1 = (if time_check then
        clamp_ts1 st (select_window tdeltaSub tdt tdv begin_dt end_dt s0 s1).2 s1
      else TStr.fixed (select_window tdeltaSub tdt tdv begin_dt end_dt s0 s1).2) := by
  unfold reconcile at h
  split at h
  · rename_i htc
    split at h
    · simp at h
    · simp only [Option.some.injEq, Prod.mk.injEq] at h
      rw [if_pos htc, if_pos htc]
      exact ⟨h.1.symm, h.2.symm⟩
  · rename_i htc
    simp only [Option.some.injEq, Prod.mk.injEq] at h
    rw [if_neg htc, if_neg htc]
    exact ⟨h.1.symm, h.2.symm⟩

/-- C6 counterexample: a clamped end bound is copied verbatim from the
stream metadata, not re-rendered: with stream `endTime` a parseable string
that does not textually match `%Y-%m-%dT%H:%M:%S.%fZ` and an explicit end
beyond it, the synthesized URL's `endDT` is that verbatim string and fails
the fixed pattern. -/
theorem url_ts_pattern_cex :
    process_stream (fun _ _ t => t) ["A", "B", "C", "D"]
        ⟨"s", "m", TStr.gw 50 false, TStr.gw 200 false⟩ none none none
        none (some 300) true true "netcdf" true (-1) "u" none
      = .url ⟨"A", "B", "C", "D", "m", "s", TStr.fixed 50, TStr.gw 200 false,
          "netcdf", -1, true, true, "u", none⟩ ∧
    matchesFixedPattern (TStr.gw 200 false) = false := by
  constructor
  · rfl
  · rfl

/-- C6 (amended): in every synthesized URL, `beginDT` and `endDT` are
exactly: without `timeCheck`, the fixed-precision `%Y-%m-%dT%H:%M:%S.%fZ`
rendering of the reconciled window's start/end instants; with `timeCheck`,
the clamped strings — the fixed rendering of the reconciled instant when
that bound was not clamped, and the stream's own verbatim bound string
(which need not match the fixed pattern) exactly when it was. -/
theorem url_ts_pattern (tdeltaSub : String → Int → Int → Int)
    (r : List String) (st : InstrumentStream) (telemetry tdt : Option String)
    (tdv : Option Int) (begin_dt end_dt : Option Int)
    (time_check exec_dpa : Bool) (application_type : String) (provenance : Bool)
    (limit : Int) (user : String) (email : Option String) (s0 s1 : Int)
    (ep : EndPoint)
    (hb : parseTS st.beginTime = some s0) (he : parseTS st.endTime = some s1)
    (h : process_stream tdeltaSub r st telemetry tdt tdv begin_dt end_dt
      time_check exec_dpa application_type provenance limit user email = .url ep) :
    ep.beginDT = (if time_check then
        clamp_ts0 st (select_window tdeltaSub tdt tdv begin_dt end_dt s0 s1).1 s0
      else TStr.fixed (select_window tdeltaSub tdt tdv begin_dt end_dt s0 s1).1) ∧
    ep.endDT = (if time_check then
        clamp_ts1 st (select_window tdeltaSub tdt tdv begin_dt end_dt s0 s1).2 s1
      else TStr.fixed (select_window tdeltaSub tdt tdv begin_dt end_dt s0 s1).2) := by
  by_cases hcond : (truthyOptStr telemetry
      && (pyFind st.method (telemetry.getD "") == -1)) = true
  · unfold process_stream at h
    rw [if_pos hcond] at h
    exact absurd h (by simp)
  · have hcond' : (truthyOptStr telemetry
        && (pyFind st.method (telemetry.getD "") == -1)) = false := by
      simpa using hcond
    rw [process_stream_eq_reconcile_of_cond tdeltaSub r st telemetry tdt tdv
      begin_dt end_dt time_check exec_dpa application_type provenance limit
      user email s0 s1 hcond' hb he] at h
    rcases hrec : reconcile tdeltaSub st tdt tdv begin_dt end_dt time_check
        s0 s1 with _ | ⟨ts0, ts1⟩
    · rw [hrec] at h
      exact absurd h (by simp)
    · rw [hrec] at h
      simp only [StreamResult.url.injEq] at h
      subst h
      obtain ⟨h0, h1⟩ := reconcile_some_eq tdeltaSub st tdt tdv begin_dt
        end_dt time_check s0 s1 ts0 ts1 hrec
      exact ⟨h0, h1⟩

/-- C6 witness: a stream with bounds [10, 20] requested with no explicit
dates and `timeCheck` true yields a URL whose `beginDT`/`endDT` are the
(unclamped) clamp results, i.e. the fixed renderings of the stream
bounds. -/
theorem url_ts_pattern_witness :
    TStr.fixed 10
      = clamp_ts0 ⟨"s", "m", TStr.gw 10 true, TStr.gw 20 true⟩ 10 10 ∧
    TStr.fixed 20
      = clamp_ts1 ⟨"s", "m", TStr.gw 10 true, TStr.gw 20 true⟩ 20 20 :=
  url_ts_pattern (fun _ _ t => t) ["A", "B", "C", "D"]
    ⟨"s", "m", TStr.gw 10 true, TStr.gw 20 true⟩ none none none none none
    true true "netcdf" true (-1) "u" none 10 20
    ⟨"A", "B", "C", "D", "m", "s", TStr.fixed 10, TStr.fixed 20,
      "netcdf", -1, true, true, "u", none⟩ rfl rfl rfl

/-- C9: when a (truthy) stream-name filter is supplied, exactly the first
stream bearing that name in the Gateway's order is retained — later
streams with the same name are discarded — so at most one URL is
synthesized for the (instrument, stream-name) pair. -/
theorem stream_name_first_url (fetchStreams : String → List InstrumentStream)
    (tdeltaSub : String → Int → Int → Int) (instrument name : String)
    (telemetry tdt : Option String) (tdv : Option Int)
    (begin_dt end_dt : Option Int) (time_check exec_dpa : Bool)
    (application_type : String) (provenance : Bool) (limit : Int)
    (user : String) (email : Option String)
    (hname : name.isEmpty = false) :
    (∀ streams x, streams.find? (fun s => s.stream == name) = some x →
      name_filter_streams streams (some name) = [x]) ∧
    (instrument_urls fetchStreams tdeltaSub instrument (some name) telemetry
      tdt tdv begin_dt end_dt time_check exec_dpa application_type provenance
      limit user email).length ≤ 1 := by
  have htr : truthyOptStr (some name) = true := by
    simp [truthyOptStr, hname]
  constructor
  · intro streams x hfind
    unfold name_filter_streams
    rw [if_pos htr]
    simp only [Option.getD_some]
    rw [hfind]
  · have hlen : ∀ streams : List InstrumentStream,
        (name_filter_streams streams (some name)).length ≤ 1 := by
      intro streams
      unfold name_filter_streams
      rw [if_pos htr]
      split <;> simp
    unfold instrument_urls
    split
    · simp
    · split
      · simp
      · calc (List.filterMap _ (name_filter_streams (fetchStreams instrument)
              (some name))).length
            ≤ (name_filter_streams (fetchStreams instrument) (some name)).length :=
              List.length_filterMap_le _ _
          _ ≤ 1 := hlen _

/-- C9 witness: with two streams named `s` differing in telemetry method,
the filter retains exactly the first and at most one URL results. -/
theorem stream_name_first_url_witness :
    name_filter_streams
        [⟨"s", "telemetered", TStr.fixed 0, TStr.fixed 10⟩,
         ⟨"s", "recovered", TStr.fixed 0, TStr.fixed 10⟩] (some "s")
      = [⟨"s", "telemetered", TStr.fixed 0, TStr.fixed 10⟩] ∧
    (instrument_urls
        (fun _ => [⟨"s", "telemetered", TStr.fixed 0, TStr.fixed 10⟩,
                   ⟨"s", "recovered", TStr.fixed 0, TStr.fixed 10⟩])
        (fun _ _ t => t) "A-B-C-D" (some "s") none none none none none true
        true "netcdf" true (-1) "u" none).length ≤ 1 :=
  ⟨(stream_name_first_url
      (fun _ => [⟨"s", "telemetered", TStr.fixed 0, TStr.fixed 10⟩,
                 ⟨"s", "recovered", TStr.fixed 0, TStr.fixed 10⟩])
      (fun _ _ t => t) "A-B-C-D" "s" none none none none none true true
      "netcdf" true (-1) "u" none rfl).1
      [⟨"s", "telemetered", TStr.fixed 0, TStr.fixed 10⟩,
       ⟨"s", "recovered", TStr.fixed 0, TStr.fixed 10⟩]
      ⟨"s", "telemetered", TStr.fixed 0, TStr.fixed 10⟩ (by decide),
   (stream_name_first_url
      (fun _ => [⟨"s", "telemetered", TStr.fixed 0, TStr.fixed 10⟩,
                 ⟨"s", "recovered", TStr.fixed 0, TStr.fixed 10⟩])
      (fun _ _ t => t) "A-B-C-D" "s" none none none none none true true
      "netcdf" true (-1) "u" none rfl).2⟩
